import Mathlib

/-!
Shallow embedding of the faen-injector data pipeline
(src/data_utils.py, src/cde_client.py, src/console_utils.py, src/main.py).

Python dictionaries holding source records are embedded as Lean structures
whose fields are `Option`-valued: `none` models an absent key or a JSON
null (both of which `dict.get` turns into Python `None`), `some v` models a
present non-null value.  Numeric values are embedded as rationals; Python's
`float(x)` cast on an already numeric `x` is the identity on the embedded
number.  Python truthiness on the relevant value shapes is modelled
explicitly: `None` and absent are falsy, `0` and `""` are falsy, everything
else relevant here is truthy.
-/

namespace FaenInjector

/-- Python scalar identity values (`user_id`, `datasetFieldID` can be an int
or a string in the source JSON). -/
inductive PyId where
  | s (v : String)
  | i (v : Int)
deriving DecidableEq, Repr

/-- Python truthiness of an identity value: `0` and `""` are falsy. -/
def PyId.truthy : PyId → Bool
  | .s v => v ≠ ""
  | .i v => v ≠ 0

/-- Python `str()` applied to an identity value. -/
def PyId.str : PyId → String
  | .s v => v
  | .i v => toString v

/-- Truthiness of an optional identity value (`not user_id` in the source). -/
def idTruthy : Option PyId → Bool
  | none => false
  | some u => u.truthy

/-- Truthiness of an optional string (`not datetime_str` in the source):
absent/null and the empty string are falsy. -/
def strTruthy : Option String → Bool
  | none => false
  | some v => v ≠ ""

/-- Python `a or b` restricted to optional strings: the left operand is kept
when it is truthy, otherwise the right operand is the result. -/
def pyOr (a b : Option String) : Option String :=
  if strTruthy a then a else b

/-- Python `s.endswith(suffix)`. -/
def pyEndsWith (s suffix : String) : Bool :=
  suffix.data.isSuffixOf s.data

/-- Zero-padding to two digits, as Python `%02d` rendering inside
`date.isoformat`/`datetime.isoformat`. -/
def pad2 (n : Nat) : String :=
  if n < 10 then "0" ++ toString n else toString n

/-- Zero-padding to four digits (year rendering in `isoformat`). -/
def pad4 (n : Nat) : String :=
  if n < 10 then "000" ++ toString n
  else if n < 100 then "00" ++ toString n
  else if n < 1000 then "0" ++ toString n
  else toString n

/-- Zero-padding to six digits (microsecond rendering in `isoformat`). -/
def pad6 (n : Nat) : String :=
  if n < 10 then "00000" ++ toString n
  else if n < 100 then "0000" ++ toString n
  else if n < 1000 then "000" ++ toString n
  else if n < 10000 then "00" ++ toString n
  else if n < 100000 then "0" ++ toString n
  else toString n

/-- A Python `datetime.date`. -/
structure PyDate where
  year : Nat
  month : Nat
  day : Nat
deriving DecidableEq, Repr

/-- A Python `datetime.datetime`; `tzMinutes = none` is a naive datetime,
`tzMinutes = some o` a timezone-aware one with a fixed UTC offset of `o`
minutes. -/
structure PyDateTime where
  year : Nat
  month : Nat
  day : Nat
  hour : Nat
  minute : Nat
  second : Nat
  microsecond : Nat
  tzMinutes : Option Int
deriving DecidableEq, Repr

/-- `date.isoformat()`: `YYYY-MM-DD`. -/
def PyDate.iso (d : PyDate) : String :=
  pad4 d.year ++ "-" ++ pad2 d.month ++ "-" ++ pad2 d.day

/-- Rendering of a fixed UTC offset as `±HH:MM` (the suffix
`datetime.isoformat` emits for an aware datetime). -/
def tzSuffix : Option Int → String
  | none => ""
  | some o =>
      (if o < 0 then "-" else "+") ++
        pad2 (o.natAbs / 60) ++ ":" ++ pad2 (o.natAbs % 60)

/-- `datetime.isoformat()`: `YYYY-MM-DDTHH:MM:SS[.ffffff][±HH:MM]`; the
fractional part is emitted only when the microsecond field is nonzero. -/
def PyDateTime.isoformat (t : PyDateTime) : String :=
  PyDate.iso ⟨t.year, t.month, t.day⟩ ++ "T" ++
    pad2 t.hour ++ ":" ++ pad2 t.minute ++ ":" ++ pad2 t.second ++
    (if t.microsecond = 0 then "" else "." ++ pad6 t.microsecond) ++
    tzSuffix t.tzMinutes

/-- Number of days in a month, with Gregorian leap years (the calendar
validation `datetime.fromisoformat` performs). -/
def daysInMonth (y m : Nat) : Nat :=
  if m = 2 then
    if (y % 4 = 0 ∧ y % 100 ≠ 0) ∨ y % 400 = 0 then 29 else 28
  else if m = 1 ∨ m = 3 ∨ m = 5 ∨ m = 7 ∨ m = 8 ∨ m = 10 ∨ m = 12 then 31
  else if m = 4 ∨ m = 6 ∨ m = 9 ∨ m = 11 then 30
  else 0

/-- Numeric value of a decimal digit character, `none` on a non-digit. -/
def digitVal (c : Char) : Option Nat :=
  if c.isDigit then some (c.toNat - 48) else none

/-- Read exactly `k` decimal digits from the front of `cs`, accumulating
into `acc`; fails if a non-digit is hit. -/
def readFixed : Nat → Nat → List Char → Option (Nat × List Char)
  | 0, acc, cs => some (acc, cs)
  | k + 1, acc, c :: cs =>
      match digitVal c with
      | some d => readFixed k (acc * 10 + d) cs
      | none => none
  | _ + 1, _, [] => none

/-- Numeric value of a list of digit characters. -/
def digitsVal (ds : List Char) : Nat :=
  ds.foldl (fun a c => a * 10 + (c.toNat - 48)) 0

/-- A fractional-second digit run converted to microseconds (1 to 6 digits,
right-padded with zeros as `fromisoformat` does). -/
def fracToMicro (ds : List Char) : Option Nat :=
  if ds.length = 0 ∨ 6 < ds.length then none
  else some (digitsVal ds * 10 ^ (6 - ds.length))

/-- Parse the `HH[:MM[:SS[.ffffff]]]` part of an ISO time, returning
`(hour, minute, second, microsecond, rest)`. -/
def parseTimePart (cs : List Char) : Option (Nat × Nat × Nat × Nat × List Char) :=
  match readFixed 2 0 cs with
  | none => none
  | some (hh, cs₁) =>
      if 24 ≤ hh then none
      else
        match cs₁ with
        | ':' :: cs₂ =>
            match readFixed 2 0 cs₂ with
            | none => none
            | some (mm, cs₃) =>
                if 60 ≤ mm then none
                else
                  match cs₃ with
                  | ':' :: cs₄ =>
                      match readFixed 2 0 cs₄ with
                      | none => none
                      | some (ss, cs₅) =>
                          if 60 ≤ ss then none
                          else
                            match cs₅ with
                            | '.' :: cs₆ =>
                                let ds := cs₆.takeWhile Char.isDigit
                                let rest := cs₆.dropWhile Char.isDigit
                                match fracToMicro ds with
                                | none => none
                                | some micro => some (hh, mm, ss, micro, rest)
                            | _ => some (hh, mm, ss, 0, cs₅)
                  | _ => some (hh, mm, 0, 0, cs₃)
        | _ => some (hh, 0, 0, 0, cs₁)

/-- Parse the optional trailing UTC-offset part `±HH:MM` of an ISO
datetime; the empty remainder yields a naive datetime (`none` offset). -/
def parseTzPart (cs : List Char) : Option (Option Int) :=
  match cs with
  | [] => some none
  | sign :: cs₁ =>
      if sign = '+' ∨ sign = '-' then
        match readFixed 2 0 cs₁ with
        | none => none
        | some (hh, cs₂) =>
            if 24 ≤ hh then none
            else
              match cs₂ with
              | ':' :: cs₃ =>
                  match readFixed 2 0 cs₃ with
                  | none => none
                  | some (mm, cs₄) =>
                      if 60 ≤ mm ∨ cs₄ ≠ [] then none
                      else
                        let off : Int := (hh * 60 + mm : Nat)
                        some (some (if sign = '-' then -off else off))
              | _ => none
      else none

/-- Model of Python `datetime.fromisoformat` on the ISO-8601 subset this
program feeds it: `YYYY-MM-DD`, optionally followed by a `T` (or space)
separator and `HH[:MM[:SS[.ffffff]]][±HH:MM]`.  Returns `none` exactly
where the library raises `ValueError`. -/
def pyFromIsoformat (s : String) : Option PyDateTime :=
  match readFixed 4 0 s.data with
  | none => none
  | some (y, cs₁) =>
      if y = 0 then none
      else
        match cs₁ with
        | '-' :: cs₂ =>
            match readFixed 2 0 cs₂ with
            | none => none
            | some (m, cs₃) =>
                if m = 0 ∨ 12 < m then none
                else
                  match cs₃ with
                  | '-' :: cs₄ =>
                      match readFixed 2 0 cs₄ with
                      | none => none
                      | some (d, cs₅) =>
                          if d = 0 ∨ daysInMonth y m < d then none
                          else
                            match cs₅ with
                            | [] => some ⟨y, m, d, 0, 0, 0, 0, none⟩
                            | sep :: cs₆ =>
                                if sep = 'T' ∨ sep = ' ' then
                                  match parseTimePart cs₆ with
                                  | none => none
                                  | some (hh, mm, ss, micro, rest) =>
                                      match parseTzPart rest with
                                      | none => none
                                      | some tz => some ⟨y, m, d, hh, mm, ss, micro, tz⟩
                                else none
                  | _ => none
        | _ => none

/-- Python `'T' in timestamp`. -/
def pyContains (s : String) (c : Char) : Bool :=
  s.data.contains c

/-- Character-level worker for `timestamp.replace("Z", "+00:00")`: every
occurrence of `Z` is replaced by the six characters `+00:00`. -/
def replaceZChars : List Char → List Char
  | [] => []
  | c :: cs =>
      if c = 'Z' then '+' :: '0' :: '0' :: ':' :: '0' :: '0' :: replaceZChars cs
      else c :: replaceZChars cs

/-- Python `timestamp.replace("Z", "+00:00")`. -/
def pyReplaceZ (s : String) : String :=
  ⟨replaceZChars s.data⟩

/-- The timestamp-normalization snippet repeated verbatim in
`transform_faen_to_datapoints`, `transform_generation_to_datapoints` and
`transform_weather_to_datapoints` (src/data_utils.py): a string already
ending in `Z` or `+00:00` passes through unchanged; otherwise it is parsed
with `fromisoformat` (after replacing every `Z` with `+00:00` when the
string contains a `T`) and re-emitted as `isoformat() + "Z"`; a parse
failure (`ValueError`) makes the caller drop the record. -/
def normalizeTimestamp (ts : String) : Option String :=
  if pyEndsWith ts "Z" ∨ pyEndsWith ts "+00:00" then some ts
  else
    match pyFromIsoformat (if pyContains ts 'T' then pyReplaceZ ts else ts) with
    | some dt => some (dt.isoformat ++ "Z")
    | none => none

/-- A FAEN consumption record (`src/data_utils.py`,
`transform_faen_to_datapoints`): `user_id`, the nested
`data.energy_consumption_kwh` value, and the `datetime` string. -/
structure ConsumptionRecord where
  user_id : Option PyId
  energy_consumption_kwh : Option ℚ
  datetime : Option String
deriving DecidableEq, Repr

/-- A FAEN generation record (`transform_generation_to_datapoints`):
`user_id`, the nested `data.generation_kwh` value, and `datetime`. -/
structure GenerationRecord where
  user_id : Option PyId
  generation_kwh : Option ℚ
  datetime : Option String
deriving DecidableEq, Repr

/-- A FAEN weather record (`transform_weather_to_datapoints`): air
temperature `ta`, relative humidity `hr`, timestamp `datetime_utc`, and the
station coordinates `lat`/`lon`. -/
structure WeatherRecord where
  ta : Option ℚ
  hr : Option ℚ
  datetime_utc : Option String
  lat : Option ℚ
  lon : Option ℚ
deriving DecidableEq, Repr

/-- A canonical CDE datapoint as built by the transform functions. -/
structure Datapoint where
  measurement : String
  unit : String
  value : ℚ
  timestamp : String
  timeseries_id : String
deriving DecidableEq, Repr

/-- A Python dict from logical timeseries keys to timeseries ids, embedded
as an association list. -/
abbrev TsMapping := List (String × String)

/-- Python `mapping.get(k)`: `some` of the stored value, or `none` when the
key is absent. -/
def dictGet (m : TsMapping) (k : String) : Option String :=
  (m.find? (fun p => p.1 = k)).map (fun p => p.2)

/-- Python `mapping[k] = v`: overwrite the value when the key is present,
otherwise append the new binding. -/
def dictInsert (m : TsMapping) (k v : String) : TsMapping :=
  if m.any (fun p => p.1 = k) then
    m.map (fun p => if p.1 = k then (k, v) else p)
  else m ++ [(k, v)]

/-- What the per-record body of a transform loop does with one record:
emit a datapoint, skip it (missing essential data, `skipped_records += 1`),
drop it for a missing timeseries mapping (`missing_timeseries += 1`), or
drop it silently on an unparseable timestamp (`ValueError` branch, no
counter). -/
inductive RecordOutcome where
  | produced (d : Datapoint)
  | skipped
  | missingTs
  | badTimestamp
deriving DecidableEq, Repr

/-- Loop body of `transform_faen_to_datapoints` (src/data_utils.py lines
217-258): skip when `user_id` is falsy, the consumption value is `None`, or
`datetime` is falsy; drop when `timeseries_mapping.get(str(user_id))` is
falsy; otherwise normalize the timestamp and build a `consumedEnergy`/`kWh`
datapoint. -/
def consumptionOutcome (m : TsMapping) (r : ConsumptionRecord) : RecordOutcome :=
  match r.user_id, r.energy_consumption_kwh, r.datetime with
  | some u, some v, some d =>
      if u.truthy = false ∨ d = "" then .skipped
      else
        match dictGet m u.str with
        | none => .missingTs
        | some tsid =>
            if tsid = "" then .missingTs
            else
              match normalizeTimestamp d with
              | none => .badTimestamp
              | some ts => .produced ⟨"consumedEnergy", "kWh", v, ts, tsid⟩
  | _, _, _ => .skipped

/-- `transform_faen_to_datapoints(faen_data, timeseries_mapping)`: the
datapoint list in input order together with the `skipped_records` and
`missing_timeseries` tallies. -/
def transform_faen_to_datapoints (faen_data : List ConsumptionRecord)
    (m : TsMapping) : List Datapoint × Nat × Nat :=
  match faen_data with
  | [] => ([], 0, 0)
  | r :: rest =>
      let acc := transform_faen_to_datapoints rest m
      match consumptionOutcome m r with
      | .produced d => (d :: acc.1, acc.2.1, acc.2.2)
      | .skipped => (acc.1, acc.2.1 + 1, acc.2.2)
      | .missingTs => (acc.1, acc.2.1, acc.2.2 + 1)
      | .badTimestamp => (acc.1, acc.2.1, acc.2.2)

/-- Loop body of `transform_generation_to_datapoints` (src/data_utils.py
lines 76-115): identical control flow to the consumption loop, except that
the timeseries id is looked up under the fixed key `"generation"` and the
datapoint is `generatedEnergy`/`kWh`. -/
def generationOutcome (m : TsMapping) (r : GenerationRecord) : RecordOutcome :=
  match r.user_id, r.generation_kwh, r.datetime with
  | some u, some v, some d =>
      if u.truthy = false ∨ d = "" then .skipped
      else
        match dictGet m "generation" with
        | none => .missingTs
        | some tsid =>
            if tsid = "" then .missingTs
            else
              match normalizeTimestamp d with
              | none => .badTimestamp
              | some ts => .produced ⟨"generatedEnergy", "kWh", v, ts, tsid⟩
  | _, _, _ => .skipped

/-- `transform_generation_to_datapoints(generation_data, timeseries_mapping)`:
datapoints plus the `skipped_records` and `missing_timeseries` tallies. -/
def transform_generation_to_datapoints (generation_data : List GenerationRecord)
    (m : TsMapping) : List Datapoint × Nat × Nat :=
  match generation_data with
  | [] => ([], 0, 0)
  | r :: rest =>
      let acc := transform_generation_to_datapoints rest m
      match generationOutcome m r with
      | .produced d => (d :: acc.1, acc.2.1, acc.2.2)
      | .skipped => (acc.1, acc.2.1 + 1, acc.2.2)
      | .missingTs => (acc.1, acc.2.1, acc.2.2 + 1)
      | .badTimestamp => (acc.1, acc.2.1, acc.2.2)

/-- What the weather loop body does with one record: emit the 0, 1 or 2
datapoints for the non-null fields among `ta`/`hr`, skip on a falsy
`datetime_utc` (`skipped_records += 1`), or drop silently on an
unparseable timestamp. -/
inductive WeatherOutcome where
  | produced (ds : List Datapoint)
  | skipped
  | badTimestamp
deriving DecidableEq, Repr

/-- Loop body of `transform_weather_to_datapoints` (src/data_utils.py lines
146-190): skip when `datetime_utc` is falsy; after timestamp
normalization, append an `outdoorTemperature`/`Celsius` datapoint when `ta`
is not `None` and a `humidityLevel`/`Percent` datapoint when `hr` is not
`None`. -/
def weatherOutcome (temperature_timeseries_id humidity_timeseries_id : String)
    (r : WeatherRecord) : WeatherOutcome :=
  match r.datetime_utc with
  | none => .skipped
  | some d =>
      if d = "" then .skipped
      else
        match normalizeTimestamp d with
        | none => .badTimestamp
        | some ts =>
            .produced
              ((match r.ta with
                | some t => [⟨"outdoorTemperature", "Celsius", t, ts, temperature_timeseries_id⟩]
                | none => []) ++
               (match r.hr with
                | some h => [⟨"humidityLevel", "Percent", h, ts, humidity_timeseries_id⟩]
                | none => []))

/-- `transform_weather_to_datapoints(weather_data, temperature_timeseries_id,
humidity_timeseries_id)`: datapoints plus the `skipped_records` tally. -/
def transform_weather_to_datapoints (weather_data : List WeatherRecord)
    (temperature_timeseries_id humidity_timeseries_id : String) :
    List Datapoint × Nat :=
  match weather_data with
  | [] => ([], 0)
  | r :: rest =>
      let acc := transform_weather_to_datapoints rest
        temperature_timeseries_id humidity_timeseries_id
      match weatherOutcome temperature_timeseries_id humidity_timeseries_id r with
      | .produced ds => (ds ++ acc.1, acc.2)
      | .skipped => (acc.1, acc.2 + 1)
      | .badTimestamp => (acc.1, acc.2)

/-- A timeseries descriptor returned by the CDE `GET /api/timeseries`
endpoint, as read by the generation branch of `main` (src/main.py lines
575-579): the ordinal `datasetField.datacellar:datasetFieldID`, the
declared `datasetField.datacellar:name`, and the assigned `id`. -/
structure CdeTimeseries where
  fieldID : Option PyId
  fieldName : Option String
  id : Option String
deriving DecidableEq, Repr

/-- One iteration of the combined-dataset identity-resolution loop
(src/main.py lines 575-622): descriptors with a falsy field id or a falsy
timeseries id are skipped outright; otherwise the stringified ordinal is
matched first (`"1"`→generation, `"2"`→outdoorTemperature,
`"3"`→humidity); only when the ordinal is unrecognized and the field name
is truthy does the name-based fallback run (`generatedEnergy`→generation,
`outdoorTemperature`→outdoorTemperature, `humidityLevel`→humidity). -/
def resolveStep (mapping : TsMapping) (ts : CdeTimeseries) : TsMapping :=
  match ts.fieldID, ts.id with
  | some fid, some tsid =>
      if fid.truthy = false ∨ tsid = "" then mapping
      else
        let fidStr := fid.str
        if fidStr = "1" then dictInsert mapping "generation" tsid
        else if fidStr = "2" then dictInsert mapping "outdoorTemperature" tsid
        else if fidStr = "3" then dictInsert mapping "humidity" tsid
        else
          match ts.fieldName with
          | some name =>
              if name = "" then mapping
              else if name = "generatedEnergy" then dictInsert mapping "generation" tsid
              else if name = "outdoorTemperature" then dictInsert mapping "outdoorTemperature" tsid
              else if name = "humidityLevel" then dictInsert mapping "humidity" tsid
              else mapping
          | none => mapping
  | _, _ => mapping

/-- The full identity-resolution pass for a combined dataset: fold the loop
body over the descriptor list starting from the empty dict. -/
def resolveCombinedMapping (timeseries_list : List CdeTimeseries) : TsMapping :=
  timeseries_list.foldl resolveStep []

/-- Metadata block of a declared timeseries: consumption declarations carry
an `EnergyMeter` with the user id as device id, combined declarations carry
a `PVPanel` with the (possibly null) station coordinates. -/
inductive TsMetadata where
  | energyMeter (deviceID : PyId)
  | pvPanel (latitude longitude : Option ℚ)
deriving DecidableEq, Repr

/-- A declared timeseries inside a generated dataset definition, keeping
the claim-relevant fields of the JSON-LD entry. -/
structure TimeSeriesEntry where
  datasetFieldID : Nat
  startDate : String
  endDate : String
  timeZone : String
  granularity : String
  metadata : TsMetadata
deriving DecidableEq, Repr

/-- A generated dataset definition, keeping the claim-relevant fields:
title (`datacellar:name`), description, and the declared timeseries. -/
structure DatasetDefinition where
  name : String
  description : String
  timeSeries : List TimeSeriesEntry
deriving DecidableEq, Repr

/-- `strftime("%B")`: the English month name (months are 1-based; the
program always runs with the C locale assumed by the spec). -/
def monthName (m : Nat) : String :=
  [ "January", "February", "March", "April", "May", "June", "July",
    "August", "September", "October", "November", "December"
  ].getD (m - 1) ""

/-- The three-case title rule shared by `generate_dataset_definition` and
`generate_combined_dataset_definition`: same month and year → "<Month>
<Year>"; same year only → "<Month1>-<Month2> <Year>"; different years →
"<Month1> <Year1> - <Month2> <Year2>", appended to the per-category
prefix. -/
def titleFor (pre : String) (start_date end_date : PyDate) : String :=
  if start_date.year = end_date.year then
    if start_date.month = end_date.month then
      pre ++ " " ++ monthName start_date.month ++ " " ++ toString start_date.year
    else
      pre ++ " " ++ monthName start_date.month ++ "-" ++ monthName end_date.month ++
        " " ++ toString start_date.year
  else
    pre ++ " " ++ monthName start_date.month ++ " " ++ toString start_date.year ++
      " - " ++ monthName end_date.month ++ " " ++ toString end_date.year

/-- `datetime.combine(start_date, datetime.min.time()).isoformat() + "Z"`. -/
def timeseriesStart (start_date : PyDate) : String :=
  PyDateTime.isoformat
    ⟨start_date.year, start_date.month, start_date.day, 0, 0, 0, 0, none⟩ ++ "Z"

/-- `datetime.combine(end_date, datetime.max.time()).replace(microsecond=0)
.isoformat() + "Z"` — `datetime.max.time()` is `23:59:59.999999`, so the
truncated instant is `23:59:59` of the end date. -/
def timeseriesEnd (end_date : PyDate) : String :=
  PyDateTime.isoformat
    ⟨end_date.year, end_date.month, end_date.day, 23, 59, 59, 0, none⟩ ++ "Z"

/-- The entity-discovery scan shared by both builders: walk the records,
keeping the first occurrence of every truthy `user_id`
(`if user_id and user_id not in user_ids_set`).  `seen` carries the ids
collected so far. -/
def scanUserIds (seen : List PyId) : List GenerationRecord → List PyId
  | [] => []
  | r :: rest =>
      match r.user_id with
      | some u =>
          if u.truthy ∧ ¬ u ∈ seen then u :: scanUserIds (u :: seen) rest
          else scanUserIds seen rest
      | none => scanUserIds seen rest

/-- The distinct truthy generation user ids in first-occurrence order. -/
def foundUserIds (generation_data : List GenerationRecord) : List PyId :=
  scanUserIds [] generation_data

/-- Python `list.sort()` order on homogeneous id lists: numeric on ints,
code-point lexicographic on strings.  Mixed int/string comparison raises in
Python; the embedding totalizes it (ints first) — no claim depends on the
mixed case. -/
def pyIdLe (a b : PyId) : Bool :=
  match a, b with
  | .i x, .i y => x ≤ y
  | .s x, .s y => x ≤ y
  | .i _, .s _ => true
  | .s _, .i _ => false

/-- The generation user-id list the combined builder derives
(src/data_utils.py lines 312-325): distinct truthy ids, sorted, replaced by
the single placeholder `"generic_generation_user"` when empty. -/
def generationUserIds (generation_data : List GenerationRecord) : List PyId :=
  let ids := (foundUserIds generation_data).insertionSort (pyIdLe · ·)
  if ids.isEmpty then [.s "generic_generation_user"] else ids

/-- Coordinates extraction (src/data_utils.py lines 327-337): `lat`/`lon`
of the first weather record, or nulls (with a warning) when there is no
weather data. -/
def weatherCoords (weather_data : List WeatherRecord) : Option ℚ × Option ℚ :=
  match weather_data with
  | [] => (none, none)
  | r :: _ => (r.lat, r.lon)

/-- `generate_combined_dataset_definition(start_date, end_date,
generation_data, weather_data)` (src/data_utils.py lines 270-485): one
field-id-1 `PVPanel` declaration per generation user id, then exactly one
temperature (field id 2) and one humidity (field id 3) declaration, all
sharing the date bounds and the first weather record's coordinates. -/
def generate_combined_dataset_definition (start_date end_date : PyDate)
    (generation_data : List GenerationRecord)
    (weather_data : List WeatherRecord) : DatasetDefinition :=
  let title := titleFor "FAEN Generation & Weather" start_date end_date
  let ts_start := timeseriesStart start_date
  let ts_end := timeseriesEnd end_date
  let coords := weatherCoords weather_data
  let meta : TsMetadata := .pvPanel coords.1 coords.2
  let genEntries := (generationUserIds generation_data).map fun _ =>
    TimeSeriesEntry.mk 1 ts_start ts_end "0" "Hourly" meta
  { name := title
    description := "Combined dataset with generation, temperature, and humidity data from "
      ++ start_date.iso ++ " to " ++ end_date.iso
    timeSeries := genEntries ++
      [TimeSeriesEntry.mk 2 ts_start ts_end "0" "Hourly" meta,
       TimeSeriesEntry.mk 3 ts_start ts_end "0" "Hourly" meta] }

/-- The consumption builder's entity discovery reuses the same scan; a
consumption record is reshaped to share the `user_id` field. -/
def consumptionUserRecord (r : ConsumptionRecord) : GenerationRecord :=
  ⟨r.user_id, r.energy_consumption_kwh, r.datetime⟩

/-- `generate_dataset_definition(start_date, end_date, faen_data)`
(src/data_utils.py lines 606-741): one field-id-1 `EnergyMeter`
declaration per distinct truthy consumption user id (sorted, placeholder
`"generic_user"` when none), all sharing the date bounds. -/
def generate_dataset_definition (start_date end_date : PyDate)
    (faen_data : List ConsumptionRecord) : DatasetDefinition :=
  let title := titleFor "FAEN Consumption" start_date end_date
  let ts_start := timeseriesStart start_date
  let ts_end := timeseriesEnd end_date
  let ids := (foundUserIds (faen_data.map consumptionUserRecord)).insertionSort (pyIdLe · ·)
  let ids := if ids.isEmpty then [PyId.s "generic_user"] else ids
  { name := title
    description := "Dataset covering the consumption of FAEN users from "
      ++ start_date.iso ++ " to " ++ end_date.iso
    timeSeries := ids.map fun u =>
      TimeSeriesEntry.mk 1 ts_start ts_end "0" "Hourly" (.energyMeter u) }

/-- Outcome of binding a Python call: `typeError` models the `TypeError`
raised when a keyword argument does not name a parameter of the callee. -/
inductive PyCallOutcome where
  | ok
  | typeError
deriving DecidableEq, Repr

/-- Python keyword-argument binding: the call succeeds only if every
keyword argument names a declared parameter. -/
def bindKwargs (params kwargs : List String) : PyCallOutcome :=
  if kwargs.all (fun k => params.contains k) then .ok else .typeError

/-- The parameter list of `console_utils.confirm_proceed` (src/console_utils.py
line 92): `def confirm_proceed(message: str, default: bool = True)`. -/
def confirmProceedParams : List String := ["message", "default"]

/-- The keyword arguments `main` passes at every confirmation point
(src/main.py lines 150-153, 220-223, 323-326, 464-466, 480-482, 523-526):
`confirm_proceed(message, non_interactive=NON_INTERACTIVE_MODE)`. -/
def mainConfirmKwargs : List String := ["non_interactive"]

/-- Binding outcome of each `confirm_proceed` call in `main`. -/
def mainConfirmCall : PyCallOutcome :=
  bindKwargs confirmProceedParams mainConfirmKwargs

/-- A datapoint dictionary as received by
`CDEApiClient.add_datapoints_batch` (src/cde_client.py lines 276-289): all
five required fields are read with `dict.get`, and the timeseries id is the
Python `or`-chain over the keys `timeseries`, `timeseries_id`,
`timeseriesId`. -/
structure RawDatapoint where
  measurement : Option String
  timestamp : Option String
  value : Option ℚ
  unit : Option String
  timeseries : Option String
  timeseries_id : Option String
  timeseriesId : Option String
deriving DecidableEq, Repr

/-- `datapoint.get("timeseries") or datapoint.get("timeseries_id") or
datapoint.get("timeseriesId")`. -/
def rawTsKey (d : RawDatapoint) : Option String :=
  pyOr d.timeseries (pyOr d.timeseries_id d.timeseriesId)

/-- `None in (measurement, timestamp, value, unit, timeseries_id)`: the row
is excluded from the CSV and counted as a missing-fields failure. -/
def rowMissing (d : RawDatapoint) : Bool :=
  d.measurement = none ∨ d.timestamp = none ∨ d.value = none ∨
    d.unit = none ∨ rawTsKey d = none

/-- Outcome of posting one CSV chunk: a `requests` exception, or an HTTP
status code. -/
inductive ChunkOutcome where
  | exn
  | status (code : Nat)
deriving DecidableEq, Repr

/-- The per-chunk accounting of `add_datapoints_batch` (src/cde_client.py
lines 261-335), iterating `batch_index` over `range(total_batches)` with
`batch = datapoints[batch_index*batch_size : (batch_index+1)*batch_size]`:
rows with a missing field are pre-filtered into `total_failed`; a transport
exception or a status outside {200, 201} adds the written row count to
`total_failed`; a 200/201 status adds it to `total_success`.  `transport`
gives the outcome of the POST for each batch index; `fuel` is the number of
remaining batches. -/
def uploadChunksFrom (transport : Nat → ChunkOutcome)
    (datapoints : List RawDatapoint) (batch_size : Nat) :
    Nat → Nat → Nat × Nat → Nat × Nat
  | _, 0, acc => acc
  | i, fuel + 1, (s, f) =>
      let batch := (datapoints.drop (i * batch_size)).take batch_size
      let missing := batch.countP (fun d => rowMissing d)
      let written := batch.countP (fun d => ¬ rowMissing d)
      let f₁ := f + missing
      match transport i with
      | .exn => uploadChunksFrom transport datapoints batch_size (i + 1) fuel (s, f₁ + written)
      | .status c =>
          if c = 200 ∨ c = 201 then
            uploadChunksFrom transport datapoints batch_size (i + 1) fuel (s + written, f₁)
          else
            uploadChunksFrom transport datapoints batch_size (i + 1) fuel (s, f₁ + written)

/-- The success/failed/total dictionary returned by
`add_datapoints_batch`. -/
structure BatchTallies where
  success : Nat
  failed : Nat
  total : Nat
deriving DecidableEq, Repr

/-- `CDEApiClient.add_datapoints_batch(datapoints, batch_size)`
(src/cde_client.py lines 239-342), with the transport layer abstracted as
a function from batch index to chunk outcome: an empty input returns
all-zero tallies; otherwise `total_batches = ceil(len/batch_size)` chunks
are processed and `total = len(datapoints)`. -/
def add_datapoints_batch (datapoints : List RawDatapoint)
    (batch_size : Nat) (transport : Nat → ChunkOutcome) : BatchTallies :=
  if datapoints.isEmpty then ⟨0, 0, 0⟩
  else
    let total_batches := (datapoints.length + batch_size - 1) / batch_size
    let acc := uploadChunksFrom transport datapoints batch_size 0 total_batches (0, 0)
    ⟨acc.1, acc.2, datapoints.length⟩

/-! ### Helper lemmas -/

theorem pyEndsWith_append (x y : String) : pyEndsWith (x ++ y) y = true := by
  unfold pyEndsWith
  rw [String.data_append]
  exact List.isSuffixOf_iff_suffix.mpr (List.suffix_append _ _)

theorem dictGet_map_overwrite (m : TsMapping) (k v : String)
    (h : m.any (fun p => p.1 = k) = true) :
    dictGet (m.map (fun p => if p.1 = k then (k, v) else p)) k = some v := by
  induction m with
  | nil => simp at h
  | cons p rest ih =>
      by_cases hp : p.1 = k
      · simp [dictGet, List.find?, hp]
      · simp only [List.any_cons, Bool.or_eq_true, decide_eq_true_eq] at h
        rcases h with h | h
        · exact absurd h hp
        · simpa [dictGet, List.find?, hp] using ih h

theorem dictGet_append_new (m : TsMapping) (k v : String)
    (h : m.any (fun p => p.1 = k) = false) :
    dictGet (m ++ [(k, v)]) k = some v := by
  induction m with
  | nil => simp [dictGet, List.find?]
  | cons p rest ih =>
      rw [List.any_cons, Bool.or_eq_false_iff] at h
      have hp : ¬ p.1 = k := by simpa using h.1
      simpa [dictGet, List.find?, hp] using ih h.2

theorem dictGet_dictInsert (m : TsMapping) (k v : String) :
    dictGet (dictInsert m k v) k = some v := by
  unfold dictInsert
  cases h : m.any (fun p => p.1 = k) with
  | true => simpa using dictGet_map_overwrite m k v h
  | false => simpa using dictGet_append_new m k v h

theorem normalizeTimestamp_empty : normalizeTimestamp "" = none := by decide

/-! ### Claim theorems -/

/-- C6: timestamp normalization passes strings already ending in `Z` or
`+00:00` through unchanged, re-emits every other parseable ISO-8601
timestamp as the parsed isoformat with `Z` appended (in particular
`"2025-05-01T10:00:00"` normalizes to `"2025-05-01T10:00:00Z"`), and is
idempotent on its domain: whenever it succeeds, applying it again to the
result is the identity. -/
theorem normalize_timestamp_idempotent :
    (∀ s, pyEndsWith s "Z" = true ∨ pyEndsWith s "+00:00" = true →
        normalizeTimestamp s = some s) ∧
    (∀ s dt, ¬ (pyEndsWith s "Z" = true ∨ pyEndsWith s "+00:00" = true) →
        pyFromIsoformat (if pyContains s 'T' then pyReplaceZ s else s) = some dt →
        normalizeTimestamp s = some (dt.isoformat ++ "Z")) ∧
    normalizeTimestamp "2025-05-01T10:00:00" = some "2025-05-01T10:00:00Z" ∧
    (∀ s t, normalizeTimestamp s = some t → normalizeTimestamp t = some t) := by
  have pass : ∀ s, pyEndsWith s "Z" = true ∨ pyEndsWith s "+00:00" = true →
      normalizeTimestamp s = some s := by
    intro s h
    unfold normalizeTimestamp
    rw [if_pos h]
  refine ⟨pass, ?_, by decide, ?_⟩
  · intro s dt h hparse
    unfold normalizeTimestamp
    rw [if_neg h]
    simp only [hparse]
  · intro s t h
    unfold normalizeTimestamp at h
    by_cases hz : pyEndsWith s "Z" = true ∨ pyEndsWith s "+00:00" = true
    · rw [if_pos hz] at h
      obtain rfl : s = t := by injection h
      exact pass s hz
    · rw [if_neg hz] at h
      rcases hp : pyFromIsoformat (if pyContains s 'T' then pyReplaceZ s else s) with _ | dt
      · rw [hp] at h; exact absurd h (by simp)
      · rw [hp] at h
        obtain rfl : dt.isoformat ++ "Z" = t := by injection h
        exact pass _ (Or.inl (pyEndsWith_append _ _))

/-- C6 witness: the concrete normalization from the claim, and idempotence
instantiated on its output. -/
theorem normalize_timestamp_idempotent_witness :
    normalizeTimestamp "2025-05-01T10:00:00" = some "2025-05-01T10:00:00Z" ∧
    normalizeTimestamp "2025-05-01T10:00:00Z" = some "2025-05-01T10:00:00Z" :=
  ⟨normalize_timestamp_idempotent.2.2.1,
   normalize_timestamp_idempotent.2.2.2 "2025-05-01T10:00:00" "2025-05-01T10:00:00Z"
     (by decide)⟩

/-- C4: every `confirm_proceed(message, non_interactive=...)` call in
`main` binds the keyword `non_interactive` against the parameter list
`(message, default)` of `console_utils.confirm_proceed`, which does not
declare it — the call raises `TypeError` instead of returning a
proceed/abort decision, so non-interactive runs are not bypassed but
crash at the first confirmation point. -/
theorem confirm_proceed_call_type_error :
    mainConfirmCall = PyCallOutcome.typeError ∧
    confirmProceedParams.contains "non_interactive" = false := by decide

/-- C3 counterexample: a descriptor whose ordinal field id is absent but
whose declared name is the recognized `generatedEnergy` is skipped outright
by the resolver (`if not field_id or not ts_id: continue` precedes the
name fallback), so no `generation` mapping is produced — refuting the
claim that the name-based fallback also covers the absent-ordinal case. -/
theorem resolve_absent_ordinal_counterexample :
    resolveCombinedMapping [⟨none, some "generatedEnergy", some "ts-1"⟩] = [] ∧
    dictGet (resolveCombinedMapping [⟨none, some "generatedEnergy", some "ts-1"⟩])
      "generation" = none := by decide

/-- C3 (amended): the resolver maps each usable descriptor by its ordinal
field id first (1→generation, 2→outdoorTemperature, 3→humidity); for a
descriptor whose ordinal id is present and truthy but unrecognized and
whose declared field name is one of `generatedEnergy`,
`outdoorTemperature`, `humidityLevel`, the name-based fallback still
produces the correct logical-key mapping; a descriptor whose ordinal field
id is absent (or falsy) is skipped entirely, producing no mapping even
when its name is recognized. -/
theorem resolve_ordinal_then_name :
    (∀ (m : TsMapping) (fid : PyId) (name : Option String) (tsid : String),
      fid.truthy = true → tsid ≠ "" →
      (fid.str = "1" →
        dictGet (resolveStep m ⟨some fid, name, some tsid⟩) "generation" = some tsid) ∧
      (fid.str = "2" →
        dictGet (resolveStep m ⟨some fid, name, some tsid⟩) "outdoorTemperature" = some tsid) ∧
      (fid.str = "3" →
        dictGet (resolveStep m ⟨some fid, name, some tsid⟩) "humidity" = some tsid)) ∧
    (∀ (m : TsMapping) (fid : PyId) (tsid : String),
      fid.truthy = true → tsid ≠ "" →
      fid.str ≠ "1" → fid.str ≠ "2" → fid.str ≠ "3" →
      dictGet (resolveStep m ⟨some fid, some "generatedEnergy", some tsid⟩)
          "generation" = some tsid ∧
      dictGet (resolveStep m ⟨some fid, some "outdoorTemperature", some tsid⟩)
          "outdoorTemperature" = some tsid ∧
      dictGet (resolveStep m ⟨some fid, some "humidityLevel", some tsid⟩)
          "humidity" = some tsid) ∧
    (∀ (m : TsMapping) (name : Option String) (tsid : Option String),
      resolveStep m ⟨none, name, tsid⟩ = m) := by
  refine ⟨?_, ?_, ?_⟩
  · intro m fid name tsid htr hts
    refine ⟨?_, ?_, ?_⟩ <;> intro hfid <;>
      simp [resolveStep, htr, hts, hfid, dictGet_dictInsert]
  · intro m fid tsid htr hts h1 h2 h3
    refine ⟨?_, ?_, ?_⟩ <;>
      simp [resolveStep, htr, hts, h1, h2, h3, dictGet_dictInsert]
  · intro m name tsid
    simp [resolveStep]

/-- C3 witness: both strategies at concrete descriptors — ordinal id 2
maps to outdoorTemperature, and an unrecognized ordinal 7 with name
`generatedEnergy` falls back to the generation key. -/
theorem resolve_ordinal_then_name_witness :
    dictGet (resolveStep [] ⟨some (.i 2), some "humidityLevel", some "ts-2"⟩)
        "outdoorTemperature" = some "ts-2" ∧
    dictGet (resolveStep [] ⟨some (.i 7), some "generatedEnergy", some "ts-9"⟩)
        "generation" = some "ts-9" :=
  ⟨(resolve_ordinal_then_name.1 [] (.i 2) (some "humidityLevel") "ts-2"
      (by decide) (by decide)).2.1 (by decide),
   (resolve_ordinal_then_name.2.1 [] (.i 7) "ts-9"
      (by decide) (by decide) (by decide) (by decide) (by decide)).1⟩

/-- C2 counterexample: a consumption record with the non-null but falsy
`user_id = 0`, a non-null value, a non-null timestamp, and a mapping entry
under the stringified id `"0"` yields no datapoint at all (it is counted
as skipped), refuting the claim that non-null fields suffice for exactly
one datapoint. -/
theorem transform_faen_zero_user_id_counterexample :
    (ConsumptionRecord.mk (some (.i 0)) (some 1) (some "2025-05-01T10:00:00Z")).user_id
        = some (.i 0) ∧
    dictGet [("0", "ts-1")] (PyId.str (.i 0)) = some "ts-1" ∧
    transform_faen_to_datapoints
        [⟨some (.i 0), some 1, some "2025-05-01T10:00:00Z"⟩] [("0", "ts-1")]
      = ([], 1, 0) := by decide

/-- C2 (amended): for every consumption record whose `user_id` is present
and truthy, whose `data.energy_consumption_kwh` is non-null (0 is valid),
whose `datetime` normalizes successfully, and whose stringified `user_id`
has a truthy entry in the timeseries mapping,
`transform_faen_to_datapoints` produces exactly one datapoint for the
record — `consumedEnergy`, `kWh`, the input value cast to float, the
normalized timestamp, and the mapped timeseries id — and the tallies are
untouched by the record. -/
theorem transform_faen_one_datapoint :
    ∀ (m : TsMapping) (r : ConsumptionRecord) (rest : List ConsumptionRecord)
      (u : PyId) (v : ℚ) (d ts tsid : String),
      r.user_id = some u → u.truthy = true →
      r.energy_consumption_kwh = some v →
      r.datetime = some d → normalizeTimestamp d = some ts →
      dictGet m u.str = some tsid → tsid ≠ "" →
      transform_faen_to_datapoints (r :: rest) m =
        (⟨"consumedEnergy", "kWh", v, ts, tsid⟩ ::
            (transform_faen_to_datapoints rest m).1,
          (transform_faen_to_datapoints rest m).2.1,
          (transform_faen_to_datapoints rest m).2.2) := by
  intro m r rest u v d ts tsid hu htr hv hd hts hmap hne
  have hdne : d ≠ "" := by
    intro h
    rw [h, normalizeTimestamp_empty] at hts
    exact absurd hts (by simp)
  have hout : consumptionOutcome m r = .produced ⟨"consumedEnergy", "kWh", v, ts, tsid⟩ := by
    unfold consumptionOutcome
    rw [hu, hv, hd]
    simp only [htr, hdne, hmap, hne, hts]
    simp
  conv_lhs => unfold transform_faen_to_datapoints
  rw [hout]

/-- C2 witness: a record with value 0 and a plain ISO timestamp produces
exactly the one expected datapoint. -/
theorem transform_faen_one_datapoint_witness :
    transform_faen_to_datapoints
        [⟨some (.s "u7"), some 0, some "2025-05-01T10:00:00"⟩] [("u7", "ts-9")] =
      ([⟨"consumedEnergy", "kWh", 0, "2025-05-01T10:00:00Z", "ts-9"⟩], 0, 0) :=
  transform_faen_one_datapoint [("u7", "ts-9")]
    ⟨some (.s "u7"), some 0, some "2025-05-01T10:00:00"⟩ [] (.s "u7") 0
    "2025-05-01T10:00:00" "2025-05-01T10:00:00Z" "ts-9"
    rfl (by decide) rfl rfl (by decide) (by decide) (by decide)

/-- C10: a consumption or generation record whose `user_id` is present but
falsy (the integer 0 or the empty string) is skipped with the skipped
tally incremented, exactly as if `user_id` were missing — the guard `if
not user_id` tests truthiness, not nullness. -/
theorem falsy_user_id_treated_missing :
    ∀ (m : TsMapping) (u : PyId), u.truthy = false →
    (∀ (r : ConsumptionRecord) (rest : List ConsumptionRecord), r.user_id = some u →
      transform_faen_to_datapoints (r :: rest) m =
        ((transform_faen_to_datapoints rest m).1,
          (transform_faen_to_datapoints rest m).2.1 + 1,
          (transform_faen_to_datapoints rest m).2.2) ∧
      transform_faen_to_datapoints (r :: rest) m =
        transform_faen_to_datapoints ({ r with user_id := none } :: rest) m) ∧
    (∀ (g : GenerationRecord) (rest : List GenerationRecord), g.user_id = some u →
      transform_generation_to_datapoints (g :: rest) m =
        ((transform_generation_to_datapoints rest m).1,
          (transform_generation_to_datapoints rest m).2.1 + 1,
          (transform_generation_to_datapoints rest m).2.2) ∧
      transform_generation_to_datapoints (g :: rest) m =
        transform_generation_to_datapoints ({ g with user_id := none } :: rest) m) := by
  intro m u htr
  constructor
  · intro r rest hu
    have hout : consumptionOutcome m r = .skipped := by
      unfold consumptionOutcome
      rw [hu]
      rcases r.energy_consumption_kwh with _ | v <;>
        rcases r.datetime with _ | d <;> simp [htr]
    have hout₂ : consumptionOutcome m { r with user_id := none } = .skipped := by
      unfold consumptionOutcome
      rcases r.energy_consumption_kwh with _ | v <;>
        rcases r.datetime with _ | d <;> simp
    constructor
    · conv_lhs => unfold transform_faen_to_datapoints
      rw [hout]
    · conv_lhs => unfold transform_faen_to_datapoints
      conv_rhs => unfold transform_faen_to_datapoints
      rw [hout, hout₂]
  · intro g rest hu
    have hout : generationOutcome m g = .skipped := by
      unfold generationOutcome
      rw [hu]
      rcases g.generation_kwh with _ | v <;>
        rcases g.datetime with _ | d <;> simp [htr]
    have hout₂ : generationOutcome m { g with user_id := none } = .skipped := by
      unfold generationOutcome
      rcases g.generation_kwh with _ | v <;>
        rcases g.datetime with _ | d <;> simp
    constructor
    · conv_lhs => unfold transform_generation_to_datapoints
      rw [hout]
    · conv_lhs => unfold transform_generation_to_datapoints
      conv_rhs => unfold transform_generation_to_datapoints
      rw [hout, hout₂]

/-- C10 witness: the falsy identities 0 and "" on otherwise complete
records are skipped by both transforms. -/
theorem falsy_user_id_treated_missing_witness :
    transform_faen_to_datapoints
        [⟨some (.i 0), some 1, some "2025-05-01T10:00:00Z"⟩] [("0", "ts-1")] =
      ([], 1, 0) ∧
    transform_generation_to_datapoints
        [⟨some (.s ""), some 1, some "2025-05-01T10:00:00Z"⟩] [("generation", "ts-1")] =
      ([], 1, 0) :=
  ⟨by
    rw [((falsy_user_id_treated_missing [("0", "ts-1")] (.i 0) (by decide)).1
      ⟨some (.i 0), some 1, some "2025-05-01T10:00:00Z"⟩ [] rfl).1]
    decide,
   by
    rw [((falsy_user_id_treated_missing [("generation", "ts-1")] (.s "") (by decide)).2
      ⟨some (.s ""), some 1, some "2025-05-01T10:00:00Z"⟩ [] rfl).1]
    decide⟩

/-- C5: a weather record whose `datetime_utc` normalizes successfully
contributes exactly as many datapoints as it has non-null fields among
`ta`/`hr` (0, 1 or 2) and leaves the skipped tally untouched — in
particular a record with both fields null but a valid timestamp is not
counted as skipped; and across any input list the skipped tally counts
exactly the records whose `datetime_utc` is missing (absent/null or
empty). -/
theorem transform_weather_datapoint_counts :
    (∀ (tid hid : String) (r : WeatherRecord) (rest : List WeatherRecord) (d ts : String),
      r.datetime_utc = some d → normalizeTimestamp d = some ts →
      (transform_weather_to_datapoints (r :: rest) tid hid).1.length =
        ((if r.ta = none then 0 else 1) + (if r.hr = none then 0 else 1)) +
          (transform_weather_to_datapoints rest tid hid).1.length ∧
      (transform_weather_to_datapoints (r :: rest) tid hid).2 =
        (transform_weather_to_datapoints rest tid hid).2) ∧
    (∀ (tid hid : String) (ws : List WeatherRecord),
      (transform_weather_to_datapoints ws tid hid).2 =
        ws.countP (fun r => !strTruthy r.datetime_utc)) := by
  constructor
  · intro tid hid r rest d ts hd hts
    have hdne : d ≠ "" := by
      intro h
      rw [h, normalizeTimestamp_empty] at hts
      exact absurd hts (by simp)
    have hout : weatherOutcome tid hid r = .produced
        ((match r.ta with
          | some t => [⟨"outdoorTemperature", "Celsius", t, ts, tid⟩]
          | none => []) ++
         (match r.hr with
          | some h => [⟨"humidityLevel", "Percent", h, ts, hid⟩]
          | none => [])) := by
      unfold weatherOutcome
      rw [hd]
      simp only [hdne, hts]
      simp
    constructor
    · conv_lhs => unfold transform_weather_to_datapoints
      rw [hout]
      rcases r.ta with _ | t <;> rcases r.hr with _ | h <;> simp <;> omega
    · conv_lhs => unfold transform_weather_to_datapoints
      rw [hout]
  · intro tid hid ws
    induction ws with
    | nil => simp [transform_weather_to_datapoints]
    | cons r rest ih =>
        conv_lhs => unfold transform_weather_to_datapoints
        rcases hd : r.datetime_utc with _ | d
        · simp only [weatherOutcome, hd]
          simp [List.countP_cons, strTruthy, hd, ih]
        · by_cases hne : d = ""
          · subst hne
            simp only [weatherOutcome, hd]
            simp [List.countP_cons, strTruthy, hd, ih]
          · rcases hn : normalizeTimestamp d with _ | ts <;>
              · simp only [weatherOutcome, hd]
                simp [hne, hn, List.countP_cons, strTruthy, hd, ih]

/-- C5 witness: a record with only `ta` present and a valid timestamp
yields one datapoint and no skip; a record with both fields null and a
valid timestamp yields nothing and is still not skipped. -/
theorem transform_weather_datapoint_counts_witness :
    (transform_weather_to_datapoints
        [⟨some 21, none, some "2025-05-01T10:00:00Z", none, none⟩] "tt" "hh").1.length = 1 ∧
    (transform_weather_to_datapoints
        [⟨none, none, some "2025-05-01T10:00:00Z", none, none⟩] "tt" "hh").2 = 0 :=
  ⟨by
    rw [(transform_weather_datapoint_counts.1 "tt" "hh"
      ⟨some 21, none, some "2025-05-01T10:00:00Z", none, none⟩ []
      "2025-05-01T10:00:00Z" "2025-05-01T10:00:00Z" rfl (by decide)).1]
    decide,
   by
    rw [(transform_weather_datapoint_counts.1 "tt" "hh"
      ⟨none, none, some "2025-05-01T10:00:00Z", none, none⟩ []
      "2025-05-01T10:00:00Z" "2025-05-01T10:00:00Z" rfl (by decide)).2]
    decide⟩

theorem countP_replicate_eq {α : Type} (p : α → Bool) (n : Nat) (a : α) :
    (List.replicate n a).countP p = if p a then n else 0 := by
  induction n with
  | zero => simp
  | succ k ih =>
      by_cases h : p a <;> simp [List.replicate_succ, List.countP_cons, ih, h]

theorem scanUserIds_nodup_and_fresh :
    ∀ (l : List GenerationRecord) (seen : List PyId),
      (scanUserIds seen l).Nodup ∧ ∀ u ∈ scanUserIds seen l, u ∉ seen := by
  intro l
  induction l with
  | nil => intro seen; simp [scanUserIds]
  | cons r rest ih =>
      intro seen
      unfold scanUserIds
      rcases r.user_id with _ | u
      · exact ih seen
      · dsimp only
        by_cases h : u.truthy = true ∧ u ∉ seen
        · rw [if_pos h]
          obtain ⟨hnd, hfresh⟩ := ih (u :: seen)
          refine ⟨List.nodup_cons.mpr ⟨?_, hnd⟩, ?_⟩
          · intro hmem
            exact absurd (List.mem_cons_self u seen) (hfresh u hmem)
          · intro x hx
            rcases List.mem_cons.mp hx with rfl | hx'
            · exact h.2
            · intro hxseen
              exact hfresh x hx' (List.mem_cons_of_mem u hxseen)
        · rw [if_neg h]
          exact ih seen

theorem scanUserIds_mem :
    ∀ (l : List GenerationRecord) (seen : List PyId) (u : PyId),
      u ∈ scanUserIds seen l ↔
        (u ∉ seen ∧ u.truthy = true ∧ ∃ r ∈ l, r.user_id = some u) := by
  intro l
  induction l with
  | nil => intro seen u; simp [scanUserIds]
  | cons r rest ih =>
      intro seen u
      unfold scanUserIds
      rcases hr : r.user_id with _ | w
      · rw [ih seen u]
        constructor
        · rintro ⟨h1, h2, h3⟩
          obtain ⟨r', hm, hid⟩ := h3
          exact ⟨h1, h2, r', List.mem_cons_of_mem r hm, hid⟩
        · rintro ⟨h1, h2, h3⟩
          refine ⟨h1, h2, ?_⟩
          rcases h3 with ⟨r', hr', hid⟩
          rcases List.mem_cons.mp hr' with rfl | hmem
          · rw [hr] at hid; exact absurd hid (by simp)
          · exact ⟨r', hmem, hid⟩
      · dsimp only
        by_cases h : w.truthy = true ∧ w ∉ seen
        · rw [if_pos h]
          by_cases hw : u = w
          · subst hw
            simp only [List.mem_cons, true_or, true_iff]
            exact ⟨h.2, h.1, r, by simp, hr⟩
          · have : u ∈ w :: scanUserIds (w :: seen) rest ↔
                u ∈ scanUserIds (w :: seen) rest := by simp [hw]
            rw [this, ih (w :: seen) u]
            constructor
            · rintro ⟨h1, h2, h3⟩
              refine ⟨fun hs => h1 (List.mem_cons_of_mem w hs), h2, ?_⟩
              rcases h3 with ⟨r', hmem, hid⟩
              exact ⟨r', List.mem_cons_of_mem r hmem, hid⟩
            · rintro ⟨h1, h2, h3⟩
              refine ⟨?_, h2, ?_⟩
              · intro hs
                rcases List.mem_cons.mp hs with rfl | hs'
                · exact hw rfl
                · exact h1 hs'
              · rcases h3 with ⟨r', hmem, hid⟩
                rcases List.mem_cons.mp hmem with rfl | hmem'
                · rw [hr] at hid
                  injection hid with hwu
                  exact absurd hwu.symm hw
                · exact ⟨r', hmem', hid⟩
        · rw [if_neg h]
          rw [ih seen u]
          constructor
          · rintro ⟨h1, h2, h3⟩
            rcases h3 with ⟨r', hmem, hid⟩
            exact ⟨h1, h2, r', List.mem_cons_of_mem r hmem, hid⟩
          · rintro ⟨h1, h2, h3⟩
            refine ⟨h1, h2, ?_⟩
            rcases h3 with ⟨r', hmem, hid⟩
            rcases List.mem_cons.mp hmem with rfl | hmem'
            · rw [hr] at hid
              obtain rfl : w = u := by injection hid
              exact absurd ⟨h2, h1⟩ h
            · exact ⟨r', hmem', hid⟩

/-- C7: for every date range, the combined dataset definition declares
`max 1 (number of distinct truthy generation user ids) + 2` timeseries —
one field-id-1 declaration per distinct user id found in the generation
records (a single placeholder when none are found), plus exactly one
temperature (field id 2) and one humidity (field id 3) declaration — and
every declaration carries the latitude/longitude of the first weather
record, which are null when no weather records are supplied. -/
theorem combined_dataset_declaration_count :
    ∀ (sd ed : PyDate) (gen : List GenerationRecord) (weather : List WeatherRecord),
      (generate_combined_dataset_definition sd ed gen weather).timeSeries.length =
        max 1 (foundUserIds gen).length + 2 ∧
      (foundUserIds gen).Nodup ∧
      (∀ u, u ∈ foundUserIds gen ↔
        (u.truthy = true ∧ ∃ r ∈ gen, r.user_id = some u)) ∧
      (generate_combined_dataset_definition sd ed gen weather).timeSeries.countP
          (fun e => e.datasetFieldID = 1) = max 1 (foundUserIds gen).length ∧
      (generate_combined_dataset_definition sd ed gen weather).timeSeries.countP
          (fun e => e.datasetFieldID = 2) = 1 ∧
      (generate_combined_dataset_definition sd ed gen weather).timeSeries.countP
          (fun e => e.datasetFieldID = 3) = 1 ∧
      (∀ e ∈ (generate_combined_dataset_definition sd ed gen weather).timeSeries,
        e.metadata = .pvPanel (weatherCoords weather).1 (weatherCoords weather).2) ∧
      weatherCoords ([] : List WeatherRecord) = (none, none) ∧
      (∀ (w : WeatherRecord) (ws : List WeatherRecord),
        weatherCoords (w :: ws) = (w.lat, w.lon)) := by
  intro sd ed gen weather
  have hlen : (generationUserIds gen).length = max 1 (foundUserIds gen).length := by
    unfold generationUserIds
    rcases hids : (foundUserIds gen).insertionSort (pyIdLe · ·) with _ | ⟨x, xs⟩
    · have h0 : (foundUserIds gen).length = 0 := by
        rw [← List.length_insertionSort (r := (pyIdLe · ·)), hids]
        rfl
      simp [h0]
    · have h1 : (foundUserIds gen).length = xs.length + 1 := by
        rw [← List.length_insertionSort (r := (pyIdLe · ·)), hids]
        simp
      simp [h1, Nat.max_eq_right (Nat.le_add_left 1 xs.length)]
  refine ⟨?_, (scanUserIds_nodup_and_fresh gen []).1, ?_, ?_, ?_, ?_, ?_, rfl, fun w ws => rfl⟩
  · simp [generate_combined_dataset_definition, hlen]
  · intro u
    rw [foundUserIds, scanUserIds_mem gen [] u]
    simp
  · simp [generate_combined_dataset_definition, List.countP_append,
      List.countP_cons, countP_replicate_eq, hlen]
  · simp [generate_combined_dataset_definition, List.countP_append,
      List.countP_cons, countP_replicate_eq]
  · simp [generate_combined_dataset_definition, List.countP_append,
      List.countP_cons, countP_replicate_eq]
  · intro e he
    simp only [generate_combined_dataset_definition, List.mem_append,
      List.mem_map, List.mem_cons] at he
    rcases he with ⟨u, _, rfl⟩ | h | h | h
    · rfl
    · rw [h]
    · rw [h]
    · exact absurd h (List.not_mem_nil e)

/-- C7 witness: two generation records for one distinct user plus one
weather record produce 3 declarations with the record's coordinates; no
records at all produce the placeholder 3 with null coordinates. -/
theorem combined_dataset_declaration_count_witness :
    (generate_combined_dataset_definition ⟨2025, 5, 1⟩ ⟨2025, 5, 2⟩
        [⟨some (.s "a"), some 1, some "x"⟩, ⟨some (.s "a"), some 2, some "y"⟩]
        [⟨some 20, some 50, some "z", some 43, some (-6)⟩]).timeSeries.length = 3 ∧
    (generate_combined_dataset_definition ⟨2025, 5, 1⟩ ⟨2025, 5, 2⟩ [] []).timeSeries.length
      = 3 ∧
    (PyId.s "a") ∈ foundUserIds
      [⟨some (.s "a"), some 1, some "x"⟩, ⟨some (.s "a"), some 2, some "y"⟩] :=
  ⟨by
    rw [(combined_dataset_declaration_count ⟨2025, 5, 1⟩ ⟨2025, 5, 2⟩
      [⟨some (.s "a"), some 1, some "x"⟩, ⟨some (.s "a"), some 2, some "y"⟩]
      [⟨some 20, some 50, some "z", some 43, some (-6)⟩]).1]
    decide,
   by
    rw [(combined_dataset_declaration_count ⟨2025, 5, 1⟩ ⟨2025, 5, 2⟩ [] []).1]
    decide,
   ((combined_dataset_declaration_count ⟨2025, 5, 1⟩ ⟨2025, 5, 2⟩
      [⟨some (.s "a"), some 1, some "x"⟩, ⟨some (.s "a"), some 2, some "y"⟩] []).2.2.1
      (PyId.s "a")).mpr
     ⟨by decide, ⟨some (.s "a"), some 1, some "x"⟩, by simp, rfl⟩⟩

theorem timeseriesStart_eq (d : PyDate) : timeseriesStart d = d.iso ++ "T00:00:00Z" := by
  show PyDate.iso d ++ "T" ++ pad2 0 ++ ":" ++ pad2 0 ++ ":" ++ pad2 0 ++
      (if (0 : Nat) = 0 then "" else "." ++ pad6 0) ++ tzSuffix none ++ "Z" =
    d.iso ++ "T00:00:00Z"
  apply String.ext
  simp [String.data_append, List.append_assoc, pad2, tzSuffix]
  decide

theorem timeseriesEnd_eq (d : PyDate) : timeseriesEnd d = d.iso ++ "T23:59:59Z" := by
  show PyDate.iso d ++ "T" ++ pad2 23 ++ ":" ++ pad2 59 ++ ":" ++ pad2 59 ++
      (if (0 : Nat) = 0 then "" else "." ++ pad6 0) ++ tzSuffix none ++ "Z" =
    d.iso ++ "T23:59:59Z"
  apply String.ext
  simp [String.data_append, List.append_assoc, pad2, tzSuffix]
  decide

/-- C8: every timeseries declared by either builder has `startDate` equal
to midnight of the start date and `endDate` equal to 23:59:59 of the end
date (the last microsecond-granularity instant of the day truncated to
whole seconds), both as ISO strings with a `Z` suffix; concretely the end
bound of 2025-05-02 is `2025-05-02T23:59:59Z`, not midnight of
2025-05-03. -/
theorem dataset_definition_time_bounds :
    ∀ (sd ed : PyDate) (cons : List ConsumptionRecord) (gen : List GenerationRecord)
      (weather : List WeatherRecord),
      (∀ e ∈ (generate_dataset_definition sd ed cons).timeSeries,
        e.startDate = sd.iso ++ "T00:00:00Z" ∧ e.endDate = ed.iso ++ "T23:59:59Z") ∧
      (∀ e ∈ (generate_combined_dataset_definition sd ed gen weather).timeSeries,
        e.startDate = sd.iso ++ "T00:00:00Z" ∧ e.endDate = ed.iso ++ "T23:59:59Z") ∧
      timeseriesEnd ⟨2025, 5, 2⟩ = "2025-05-02T23:59:59Z" ∧
      timeseriesEnd ⟨2025, 5, 2⟩ ≠ timeseriesStart ⟨2025, 5, 3⟩ := by
  intro sd ed cons gen weather
  refine ⟨?_, ?_, by decide, by decide⟩
  · intro e he
    simp only [generate_dataset_definition, List.mem_map] at he
    obtain ⟨u, _, rfl⟩ := he
    exact ⟨timeseriesStart_eq sd, timeseriesEnd_eq ed⟩
  · intro e he
    simp only [generate_combined_dataset_definition, List.mem_append, List.mem_map,
      List.mem_cons] at he
    rcases he with ⟨u, _, rfl⟩ | h | h | h
    · exact ⟨timeseriesStart_eq sd, timeseriesEnd_eq ed⟩
    · rw [h]; exact ⟨timeseriesStart_eq sd, timeseriesEnd_eq ed⟩
    · rw [h]; exact ⟨timeseriesStart_eq sd, timeseriesEnd_eq ed⟩
    · exact absurd h (List.not_mem_nil e)

/-- C8 witness: the bounds of the placeholder declaration over
2025-05-01..2025-05-02. -/
theorem dataset_definition_time_bounds_witness :
    (TimeSeriesEntry.mk 1 (timeseriesStart ⟨2025, 5, 1⟩) (timeseriesEnd ⟨2025, 5, 2⟩) "0"
        "Hourly" (TsMetadata.energyMeter (PyId.s "generic_user"))).startDate =
      PyDate.iso ⟨2025, 5, 1⟩ ++ "T00:00:00Z" ∧
    (TimeSeriesEntry.mk 1 (timeseriesStart ⟨2025, 5, 1⟩) (timeseriesEnd ⟨2025, 5, 2⟩) "0"
        "Hourly" (TsMetadata.energyMeter (PyId.s "generic_user"))).endDate =
      PyDate.iso ⟨2025, 5, 2⟩ ++ "T23:59:59Z" :=
  (dataset_definition_time_bounds ⟨2025, 5, 1⟩ ⟨2025, 5, 2⟩ [] [] []).1
    (TimeSeriesEntry.mk 1 (timeseriesStart ⟨2025, 5, 1⟩) (timeseriesEnd ⟨2025, 5, 2⟩) "0"
      "Hourly" (TsMetadata.energyMeter (PyId.s "generic_user"))) (by decide)

/-- C9: the dataset title follows the three-case rule deterministically:
same month and year → "<prefix> <Month> <Year>" (so the consumption title
over 2025-05-01..2025-05-31 ends with "May 2025"); same year, different
months → "<prefix> <Month1>-<Month2> <Year>" (containing "May-June 2025"
for 2025-05-01..2025-06-15); different years → both years appear. -/
theorem dataset_definition_title_rule :
    ∀ (sd ed : PyDate) (cons : List ConsumptionRecord) (gen : List GenerationRecord)
      (weather : List WeatherRecord),
      (sd.year = ed.year → sd.month = ed.month →
        (generate_dataset_definition sd ed cons).name =
          "FAEN Consumption " ++ monthName sd.month ++ " " ++ toString sd.year ∧
        (generate_combined_dataset_definition sd ed gen weather).name =
          "FAEN Generation & Weather " ++ monthName sd.month ++ " " ++ toString sd.year) ∧
      (sd.year = ed.year → sd.month ≠ ed.month →
        (generate_dataset_definition sd ed cons).name =
          "FAEN Consumption " ++ monthName sd.month ++ "-" ++ monthName ed.month ++
            " " ++ toString sd.year ∧
        (generate_combined_dataset_definition sd ed gen weather).name =
          "FAEN Generation & Weather " ++ monthName sd.month ++ "-" ++ monthName ed.month ++
            " " ++ toString sd.year) ∧
      (sd.year ≠ ed.year →
        (generate_dataset_definition sd ed cons).name =
          "FAEN Consumption " ++ monthName sd.month ++ " " ++ toString sd.year ++
            " - " ++ monthName ed.month ++ " " ++ toString ed.year ∧
        (generate_combined_dataset_definition sd ed gen weather).name =
          "FAEN Generation & Weather " ++ monthName sd.month ++ " " ++ toString sd.year ++
            " - " ++ monthName ed.month ++ " " ++ toString ed.year) ∧
      pyEndsWith (generate_dataset_definition ⟨2025, 5, 1⟩ ⟨2025, 5, 31⟩ cons).name
        "May 2025" = true ∧
      (generate_dataset_definition ⟨2025, 5, 1⟩ ⟨2025, 6, 15⟩ cons).name =
        "FAEN Consumption May-June 2025" ∧
      (generate_dataset_definition ⟨2024, 12, 20⟩ ⟨2025, 1, 5⟩ cons).name =
        "FAEN Consumption December 2024 - January 2025" := by
  intro sd ed cons gen weather
  have hn1 : ∀ (a b : PyDate), (generate_dataset_definition a b cons).name =
      titleFor "FAEN Consumption" a b := fun a b => rfl
  have hn2 : ∀ (a b : PyDate),
      (generate_combined_dataset_definition a b gen weather).name =
      titleFor "FAEN Generation & Weather" a b := fun a b => rfl
  refine ⟨?_, ?_, ?_, ?_, ?_, ?_⟩
  · intro h1 h2
    rw [hn1, hn2]
    constructor <;> simp [titleFor, h1, h2]
  · intro h1 h2
    rw [hn1, hn2]
    constructor <;> simp [titleFor, h1, h2]
  · intro h1
    rw [hn1, hn2]
    constructor <;> simp [titleFor, h1]
  · rw [hn1]
    decide
  · rw [hn1]
    decide
  · rw [hn1]
    decide

/-- C9 witness: the same-month rule at May 2025 and the different-years
rule at December 2024 / January 2025. -/
theorem dataset_definition_title_rule_witness :
    (generate_dataset_definition ⟨2025, 5, 1⟩ ⟨2025, 5, 31⟩ []).name =
      "FAEN Consumption " ++ monthName 5 ++ " " ++ toString 2025 ∧
    (generate_combined_dataset_definition ⟨2024, 12, 1⟩ ⟨2025, 1, 5⟩ [] []).name =
      "FAEN Generation & Weather " ++ monthName 12 ++ " " ++ toString 2024 ++
        " - " ++ monthName 1 ++ " " ++ toString 2025 :=
  ⟨((dataset_definition_title_rule ⟨2025, 5, 1⟩ ⟨2025, 5, 31⟩ [] [] []).1 rfl rfl).1,
   ((dataset_definition_title_rule ⟨2024, 12, 1⟩ ⟨2025, 1, 5⟩ [] [] []).2.2.1
      (by decide)).2⟩

theorem countP_not_add {α : Type} (p : α → Bool) (l : List α) :
    l.countP p + l.countP (fun a => ¬ p a) = l.length :=
  (List.length_eq_countP_add_countP p l).symm

theorem uploadChunksFrom_sum (transport : Nat → ChunkOutcome)
    (dps : List RawDatapoint) (bs : Nat) :
    ∀ (fuel i s f : Nat),
      (uploadChunksFrom transport dps bs i fuel (s, f)).1 +
        (uploadChunksFrom transport dps bs i fuel (s, f)).2 =
      s + f + ((dps.drop (i * bs)).take (fuel * bs)).length := by
  intro fuel
  induction fuel with
  | zero => intro i s f; simp [uploadChunksFrom]
  | succ k ih =>
      intro i s f
      have hsplit : ((dps.drop (i * bs)).take bs).countP (fun d => rowMissing d) +
          ((dps.drop (i * bs)).take bs).countP (fun d => ¬ rowMissing d) =
          ((dps.drop (i * bs)).take bs).length :=
        countP_not_add (fun d => rowMissing d) _
      have hdd : dps.drop ((i + 1) * bs) = (dps.drop (i * bs)).drop bs := by
        rw [List.drop_drop, Nat.succ_mul, Nat.add_comm]
      have harith :
          ((dps.drop (i * bs)).take bs).length +
            ((dps.drop ((i + 1) * bs)).take (k * bs)).length =
          ((dps.drop (i * bs)).take ((k + 1) * bs)).length := by
        rw [hdd]
        simp only [List.length_take, List.length_drop, Nat.succ_mul]
        omega
      conv_lhs => unfold uploadChunksFrom
      rcases transport i with _ | c
      · dsimp only
        rw [ih (i + 1)]
        omega
      · dsimp only
        by_cases hc : c = 200 ∨ c = 201
        · rw [if_pos hc, ih (i + 1)]
          omega
        · rw [if_neg hc, ih (i + 1)]
          omega

/-- C1: for every datapoint list and positive chunk size,
`add_datapoints_batch` returns `total` equal to the input length and
`success + failed` equal to the input length, with the transport layer
abstracted per chunk; moreover on a single chunk a 200/201 response puts
exactly the submitted (non-missing-field) rows into `success` and the
missing-field rows into `failed`, and a transport exception puts the whole
chunk into `failed`. -/
theorem add_datapoints_batch_accounting :
    ∀ (dps : List RawDatapoint) (bs : Nat) (transport : Nat → ChunkOutcome),
      0 < bs →
      ((add_datapoints_batch dps bs transport).total = dps.length ∧
        (add_datapoints_batch dps bs transport).success +
          (add_datapoints_batch dps bs transport).failed = dps.length) ∧
      (dps ≠ [] → dps.length ≤ bs → transport 0 = .status 200 →
        add_datapoints_batch dps bs transport =
          ⟨dps.countP (fun d => ¬ rowMissing d), dps.countP (fun d => rowMissing d),
            dps.length⟩) ∧
      (dps ≠ [] → dps.length ≤ bs → transport 0 = .exn →
        add_datapoints_batch dps bs transport = ⟨0, dps.length, dps.length⟩) := by
  intro dps bs transport hbs
  rcases hnil : dps.isEmpty with _ | _
  · have hne : ¬ dps.isEmpty = true := by simp [hnil]
    have htb : dps.length ≤ ((dps.length + bs - 1) / bs) * bs := by
      have h1 := Nat.div_add_mod (dps.length + bs - 1) bs
      have h2 := Nat.mod_lt (dps.length + bs - 1) hbs
      have hlen : dps.length ≠ 0 := by
        simpa [List.isEmpty_iff_length_eq_zero] using hnil
      rw [Nat.mul_comm]
      omega
    refine ⟨?_, ?_, ?_⟩
    · constructor
      · simp [add_datapoints_batch, hne]
      · have hsum := uploadChunksFrom_sum transport dps bs
          ((dps.length + bs - 1) / bs) 0 0 0
        simp only [Nat.zero_mul, List.drop_zero, Nat.zero_add] at hsum
        have htake : (dps.take (((dps.length + bs - 1) / bs) * bs)).length = dps.length := by
          rw [List.length_take]
          omega
        simp only [add_datapoints_batch, hne, Bool.false_eq_true, if_false]
        rw [hsum, htake]
    · intro _ hle ht
      have htb1 : (dps.length + bs - 1) / bs = 1 := by
        have hlen : dps.length ≠ 0 := by
          simpa [List.isEmpty_iff_length_eq_zero] using hnil
        apply Nat.div_eq_of_lt_le <;> omega
      have hstep : uploadChunksFrom transport dps bs 0 1 (0, 0) =
          (dps.countP (fun d => ¬ rowMissing d), dps.countP (fun d => rowMissing d)) := by
        unfold uploadChunksFrom
        rw [Nat.zero_mul, List.drop_zero, List.take_of_length_le hle, ht]
        simp [uploadChunksFrom]
      unfold add_datapoints_batch
      rw [hnil]
      simp only [Bool.false_eq_true, if_false]
      rw [htb1, hstep]
    · intro _ hle ht
      have htb1 : (dps.length + bs - 1) / bs = 1 := by
        have hlen : dps.length ≠ 0 := by
          simpa [List.isEmpty_iff_length_eq_zero] using hnil
        apply Nat.div_eq_of_lt_le <;> omega
      have hstep : uploadChunksFrom transport dps bs 0 1 (0, 0) =
          (0, dps.countP (fun d => rowMissing d) + dps.countP (fun d => ¬ rowMissing d)) := by
        unfold uploadChunksFrom
        rw [Nat.zero_mul, List.drop_zero, List.take_of_length_le hle, ht]
        simp [uploadChunksFrom]
      have hfull : dps.countP (fun d => rowMissing d) +
          dps.countP (fun d => ¬ rowMissing d) = dps.length :=
        countP_not_add (fun d => rowMissing d) dps
      unfold add_datapoints_batch
      rw [hnil]
      simp only [Bool.false_eq_true, if_false]
      rw [htb1, hstep, hfull]
  · have hd : dps = [] := List.isEmpty_iff.mp hnil
    subst hd
    refine ⟨⟨by simp [add_datapoints_batch], by simp [add_datapoints_batch]⟩,
      fun h => absurd rfl h, fun h => absurd rfl h⟩

/-- C1 witness: a two-row chunk with one missing-field row uploaded with
status 200 tallies success 1, failed 1, total 2; the accounting identity
holds there as well. -/
theorem add_datapoints_batch_accounting_witness :
    (add_datapoints_batch
        [⟨some "m", some "t", some 1, some "kWh", some "ts", none, none⟩,
         ⟨none, some "t", some 1, some "kWh", some "ts", none, none⟩] 2
        (fun _ => .status 200)).success +
      (add_datapoints_batch
        [⟨some "m", some "t", some 1, some "kWh", some "ts", none, none⟩,
         ⟨none, some "t", some 1, some "kWh", some "ts", none, none⟩] 2
        (fun _ => .status 200)).failed = 2 ∧
    add_datapoints_batch
        [⟨some "m", some "t", some 1, some "kWh", some "ts", none, none⟩,
         ⟨none, some "t", some 1, some "kWh", some "ts", none, none⟩] 2
        (fun _ => .status 200) = ⟨1, 1, 2⟩ :=
  ⟨(add_datapoints_batch_accounting
      [⟨some "m", some "t", some 1, some "kWh", some "ts", none, none⟩,
       ⟨none, some "t", some 1, some "kWh", some "ts", none, none⟩] 2
      (fun _ => .status 200) (by decide)).1.2,
   by
    rw [(add_datapoints_batch_accounting
      [⟨some "m", some "t", some 1, some "kWh", some "ts", none, none⟩,
       ⟨none, some "t", some 1, some "kWh", some "ts", none, none⟩] 2
      (fun _ => .status 200) (by decide)).2.1 (by decide) (by decide) rfl]
    decide⟩

end FaenInjector
